import Mathlib

/-!
Shallow embedding of the nextcloud-dialogs file picker:
the FilePicker Vue component's selection/navigation state and filter
pipeline (FilePicker.vue), and the FilePicker / FilePickerBuilder classes
(filepicker.ts), together with theorems checking the specification's
claims against this embedding.
-/

set_option maxRecDepth 4096

namespace NcDialogs

/-- Kind of a file-system node, mirroring `Node.type` from nextcloud/files
(`file` or `folder`). -/
inductive NodeType where
  | file
  | folder
deriving DecidableEq, Repr

/-- A file-system entry as seen by the picker: the fields of
nextcloud/files `Node` that the picker code reads. `mime` is optional
(`string | undefined` in the source). -/
structure FNode where
  basename : String
  path : String
  type : NodeType
  mime : Option String := none
deriving DecidableEq, Repr

/-- JavaScript `a || b` on a possibly-undefined string: `undefined` and the
empty string are falsy, so they fall through to the default. -/
def jsOrStr (o : Option String) (d : String) : String :=
  match o with
  | some s => if s = "" then d else s
  | none => d

/-- JavaScript truthiness of a possibly-undefined string, keeping the value
when truthy: `undefined` and `""` become `none`. -/
def strTruthy (o : Option String) : Option String :=
  match o with
  | some s => if s = "" then none else some s
  | none => none

/-- JavaScript `String.prototype.startsWith`, computed on the character
lists so that it evaluates inside the kernel. -/
def jsStartsWith (s pre : String) : Bool :=
  pre.toList.isPrefixOf s.toList

/-- JavaScript `String.prototype.endsWith`, computed on the character
lists so that it evaluates inside the kernel. -/
def jsEndsWith (s suf : String) : Bool :=
  suf.toList.reverse.isPrefixOf s.toList.reverse

/-- JavaScript `String.prototype.toLowerCase` on ASCII, computed on the
character list so that it evaluates inside the kernel. -/
def jsToLower (s : String) : String :=
  String.mk (s.toList.map Char.toLower)

/-- Modelled from the spec: the mime allow-list matcher
`isSupportedMimeType` of the `useMimeFilter` composable, whose source file
is not part of this snapshot. Per the spec, a mime type is supported when
some allow-list pattern matches it: exact match, or prefix match when the
pattern ends in a slash followed by a star (the pattern without its final
star character is then a prefix of the mime type). -/
def isSupportedMimeType (allowList : List String) (mime : String) : Bool :=
  allowList.any fun pat =>
    pat = mime
      || (jsEndsWith pat "/*"
            && jsStartsWith mime (String.mk pat.toList.dropLast))

/-- JavaScript `String.prototype.includes`: substring containment, i.e.
the needle is a prefix of some suffix of the haystack. -/
def strIncludes (s sub : String) : Bool :=
  (List.range (s.toList.length + 1)).any fun i =>
    sub.toList.isPrefixOf (s.toList.drop i)

/-- The three views of the picker navigation. -/
inductive View where
  | files
  | favorites
  | recent
deriving DecidableEq, Repr

/-- A dialog button as declared by the caller: label, type string
(primary or secondary), optional icon, and the callback receiving the
picked nodes. -/
structure IFilePickerButton where
  label : String := ""
  type : Option String := none
  icon : Option String := none
  callback : List FNode → Unit := fun _ => ()

/-- The caller's button specification: a static list, or a factory from
the current selection, path and view. -/
inductive ButtonsSpec where
  | list (bs : List IFilePickerButton)
  | factory (f : List FNode → String → View → List IFilePickerButton)

/-- The props of the FilePicker Vue component after `withDefaults` has been
applied (so `container` is a plain string defaulting to the body, and
`multiselect`, `mimetypeFilter`, `allowPickDirectory` hold their defaults
unless set). `buttons` and `name` have no defaults. -/
structure PickerProps where
  buttons : ButtonsSpec := .list []
  name : String := ""
  allowPickDirectory : Bool := false
  container : String := "body"
  filterFn : Option (FNode → Bool) := none
  mimetypeFilter : List String := []
  multiselect : Bool := true
  path : Option String := none

/-- The files list filtered by the current filter criteria: the
`filteredFiles` computed of FilePicker.vue. `showHiddenFiles` is the
external files-app setting, `filterString` the free-text query ref. -/
def filteredFiles (showHiddenFiles : Bool) (props : PickerProps)
    (filterString : String) (files : List FNode) : List FNode :=
  let f1 :=
    if !showHiddenFiles then
      files.filter fun file => !jsStartsWith file.basename "."
    else files
  let f2 :=
    if props.mimetypeFilter.length > 0 then
      f1.filter fun file =>
        file.type = NodeType.folder
          || (match strTruthy file.mime with
              | some m => isSupportedMimeType props.mimetypeFilter m
              | none => false)
    else f1
  let f3 :=
    if filterString ≠ "" then
      f2.filter fun file =>
        strIncludes (jsToLower file.basename) (jsToLower filterString)
    else f2
  match props.filterFn with
  | some fn => f3.filter fn
  | none => f3

/-- Filter 1 of the pipeline as a single predicate: hidden files are
dropped unless `showHiddenFiles` is set. -/
def passesHidden (showHiddenFiles : Bool) (file : FNode) : Bool :=
  showHiddenFiles || !jsStartsWith file.basename "."

/-- Filter 2 of the pipeline as a single predicate: with a non-empty mime
allow-list, non-folders must have a supported mime type. -/
def passesMime (props : PickerProps) (file : FNode) : Bool :=
  !(props.mimetypeFilter.length > 0)
    || (file.type = NodeType.folder
        || (match strTruthy file.mime with
            | some m => isSupportedMimeType props.mimetypeFilter m
            | none => false))

/-- Filter 3 of the pipeline as a single predicate: with a non-empty query,
the basename must contain it case-insensitively. -/
def passesQuery (filterString : String) (file : FNode) : Bool :=
  filterString = "" || strIncludes (jsToLower file.basename) (jsToLower filterString)

/-- Filter 4 of the pipeline as a single predicate: the caller predicate,
when supplied. -/
def passesFilterFn (props : PickerProps) (file : FNode) : Bool :=
  match props.filterFn with
  | some fn => fn file
  | none => true

/-- The four-stage pipeline collapses to one filter by the conjunction of
the four stage predicates, applied in the fixed order of the source. -/
theorem filteredFiles_eq_filter (showHiddenFiles : Bool) (props : PickerProps)
    (filterString : String) (files : List FNode) :
    filteredFiles showHiddenFiles props filterString files =
      files.filter fun file =>
        passesHidden showHiddenFiles file && passesMime props file
          && passesQuery filterString file && passesFilterFn props file := by
  unfold filteredFiles passesHidden passesMime passesQuery passesFilterFn
  rcases props with ⟨buttons, name, apd, container, filterFn, mimeF, ms, path⟩
  simp only
  cases showHiddenFiles <;>
    rcases hm : decide (mimeF.length > 0) with _ | _ <;>
      rcases hq : decide (filterString = "") with _ | _ <;>
        cases filterFn <;>
          simp_all [List.filter_filter, Bool.and_assoc, Bool.and_comm,
            Bool.and_left_comm, Function.comp]

/-- The mutable refs of the FilePicker component that the claims concern,
plus the session-storage cell behind the fixed key
`NC.FilePicker.LastPath` (`storage` models the value under that key, so
that reads and writes of the persisted last path are observable). -/
structure PickerState where
  currentView : View := View.files
  selectedFiles : List FNode := []
  savedPath : String := "/"
  navigatedPath : Option String := none
  filterString : String := ""
  storage : Option String := none
deriving Repr

/-- The fixed session-storage key for the persisted last path. -/
def lastPathKey : String := "NC.FilePicker.LastPath"

/-- Component state at mount: `savedPath` is read from session storage with
the root as JavaScript-or default, nothing navigated yet, no selection. -/
def initPickerState (stored : Option String) : PickerState :=
  { currentView := View.files
    selectedFiles := []
    savedPath := jsOrStr stored "/"
    navigatedPath := none
    filterString := ""
    storage := stored }

/-- The `currentPath` computed getter: only the files view uses a path,
favorites and recent always work on the root; in the files view the path
is the navigated path, else the caller-supplied path prop, else the saved
path, under JavaScript truthiness. -/
def getCurrentPath (props : PickerProps) (st : PickerState) : String :=
  if st.currentView = View.files then
    jsOrStr st.navigatedPath (jsOrStr props.path st.savedPath)
  else "/"

/-- The `currentPath` computed setter: persists the path to session storage
when no `path` prop was supplied, records it as the navigated path, and
resets the selected files. -/
def setCurrentPath (props : PickerProps) (st : PickerState) (path : String) :
    PickerState :=
  { st with
    storage := if props.path = none then some path else st.storage
    navigatedPath := some path
    selectedFiles := [] }

/-- Updating the `currentView` ref through the sync binding of the
navigation component. -/
def setCurrentView (st : PickerState) (v : View) : PickerState :=
  { st with currentView := v }

/-- The result of the promise returned by `FilePicker.pick`: resolution
with a single path, resolution with a list of paths, or rejection with a
`FilePickerClosed` error carrying a message. -/
inductive PickResult where
  | single (path : String)
  | multi (paths : List String)
  | closedError (msg : String)
deriving DecidableEq, Repr

/-- Whether a pick result is the rejection with `FilePickerClosed`. -/
def PickResult.isRejected : PickResult → Bool
  | .closedError _ => true
  | _ => false

/-- The close callback installed by `FilePicker.pick` on the spawned
dialog: with no node array or an empty one the promise is rejected with
`FilePickerClosed`, otherwise it resolves with all node paths
(multi-select) or the first node's path with root fallback
(single-select). `nodes = none` models a close event without payload. -/
def pickOnClose (multiSelect : Bool) (nodes : Option (List FNode)) :
    PickResult :=
  match nodes with
  | none => .closedError "FilePicker: No nodes selected"
  | some ns =>
    if ns.length = 0 then .closedError "FilePicker: No nodes selected"
    else if multiSelect then .multi (ns.map FNode.path)
    else .single (jsOrStr (ns.head?.map FNode.path) "/")

/-- The `handleClose` handler of the component: when the dialog reports it
is no longer open, a close event without nodes is emitted; the result is
the emitted close payload, or `none` when nothing is emitted. -/
def handleClose (open_ : Bool) : Option (Option (List FNode)) :=
  if !open_ then some none else none

/-- The nodes attached to the close event by the wrapped callback of every
dialog button: with an empty selection and directory picking allowed, the
entry of the current path fetched through `getFile`; otherwise the
selected files. -/
def pickNodes (props : PickerProps) (getFile : String → FNode)
    (st : PickerState) : List FNode :=
  if st.selectedFiles.length = 0 && props.allowPickDirectory then
    [getFile (getCurrentPath props st)]
  else st.selectedFiles

/-- The `dialogButtons` computed, before wrapping the callbacks: a factory
specification is invoked with the current selection, path and view, a
static list is used as is. -/
def dialogButtonsSource (props : PickerProps) (st : PickerState) :
    List IFilePickerButton :=
  match props.buttons with
  | .list bs => bs
  | .factory f => f st.selectedFiles (getCurrentPath props st) st.currentView

/-- Node-style join of two path segments: trailing slashes of the first
and leading slashes of the second collapse into a single separator. -/
def joinSeg (a b : String) : String :=
  if a = "" then b
  else if b = "" then a
  else String.mk
    ((a.toList.reverse.dropWhile (· = '/')).reverse
      ++ '/' :: b.toList.dropWhile (· = '/'))

/-- Node-style join of three path segments, as used for the create-folder
request `join(davRootPath, currentPath, name)`. -/
def joinPath (a b c : String) : String := joinSeg (joinSeg a b) c

/-- Observable outcome of the `onCreateFolder` handler: the files listing
afterwards, the event-bus emission (`some payload` when the
`files:node:created` event fired, where the payload itself is the possibly
undefined looked-up entry), and whether the error toast was shown. -/
structure CreateFolderOutcome where
  files : List FNode
  emittedEvent : Option (Option FNode)
  errorShown : Bool
deriving DecidableEq, Repr

/-- The `onCreateFolder` handler: ask the DAV client to create the
directory under the DAV root; on success reload the listing (modelled by
the `reloadedFiles` the client would now report) and emit a
`files:node:created` event whose payload is the first entry of the
refreshed listing with the requested basename; on failure show an error
toast and leave the listing untouched. `createDirectory` models the
fallible remote call as a success predicate on the requested path. -/
def onCreateFolder (davRootPath : String) (createDirectory : String → Bool)
    (reloadedFiles currentFiles : List FNode) (currentPath name : String) :
    CreateFolderOutcome :=
  if createDirectory (joinPath davRootPath currentPath name) then
    { files := reloadedFiles
      emittedEvent :=
        some ((reloadedFiles.filter fun file => file.basename = name).head?)
      errorShown := false }
  else
    { files := currentFiles
      emittedEvent := none
      errorShown := true }

/-- The `FilePicker` class of filepicker.ts: the configuration captured by
its constructor. -/
structure FilePicker where
  title : String
  multiSelect : Bool
  mimeTypeFilter : List String
  directoriesAllowed : Bool
  buttons : ButtonsSpec
  path : Option String := none
  filter : Option (FNode → Bool) := none
  container : Option String := none

/-- The props `FilePicker.pick` passes to `spawnDialog`, after the Vue
`withDefaults` of the component have been applied: the only prop the
picker may leave undefined and that has a non-undefined default is
`container`, which defaults to the body. -/
def FilePicker.spawnProps (fp : FilePicker) : PickerProps :=
  { allowPickDirectory := fp.directoriesAllowed
    buttons := fp.buttons
    container := fp.container.getD "body"
    name := fp.title
    path := fp.path
    mimetypeFilter := fp.mimeTypeFilter
    multiselect := fp.multiSelect
    filterFn := fp.filter }

/-- The `FilePickerBuilder` class: its fields, plus `warnLog` recording the
messages written through `console.warn` so that warnings are observable. -/
structure FilePickerBuilder where
  title : String
  multiSelect : Bool := false
  mimeTypeFilter : List String := []
  directoriesAllowed : Bool := false
  path : Option String := none
  filter : Option (FNode → Bool) := none
  buttons : ButtonsSpec := .list []
  container : Option String := none
  warnLog : List String := []

/-- The `getFilePickerBuilder` entry point: a fresh builder holding only
the title. -/
def getFilePickerBuilder (title : String) : FilePickerBuilder :=
  { title := title }

/-- Builder method `setContainer`. -/
def FilePickerBuilder.setContainer (b : FilePickerBuilder) (c : String) :
    FilePickerBuilder :=
  { b with container := some c }

/-- Builder method `setMultiSelect`. -/
def FilePickerBuilder.setMultiSelect (b : FilePickerBuilder) (ms : Bool) :
    FilePickerBuilder :=
  { b with multiSelect := ms }

/-- Builder method `addMimeTypeFilter`. -/
def FilePickerBuilder.addMimeTypeFilter (b : FilePickerBuilder) (f : String) :
    FilePickerBuilder :=
  { b with mimeTypeFilter := b.mimeTypeFilter ++ [f] }

/-- Builder method `setMimeTypeFilter`. -/
def FilePickerBuilder.setMimeTypeFilter (b : FilePickerBuilder)
    (f : List String) : FilePickerBuilder :=
  { b with mimeTypeFilter := f }

/-- The warning printed by `addButton` when it overwrites a factory. -/
def addButtonWarning : String :=
  "FilePicker buttons were set to factory, now overwritten with button object."

/-- Builder method `addButton`: when the buttons were previously set to a
factory, a warning is logged and the factory is replaced by an empty list
before the new button is appended. -/
def FilePickerBuilder.addButton (b : FilePickerBuilder)
    (button : IFilePickerButton) : FilePickerBuilder :=
  match b.buttons with
  | .factory _ =>
      { b with
        warnLog := b.warnLog ++ [addButtonWarning]
        buttons := .list [button] }
  | .list bs => { b with buttons := .list (bs ++ [button]) }

/-- Builder method `setButtonFactory`: unconditionally replaces the button
specification with the factory. -/
def FilePickerBuilder.setButtonFactory (b : FilePickerBuilder)
    (factory : List FNode → String → View → List IFilePickerButton) :
    FilePickerBuilder :=
  { b with buttons := .factory factory }

/-- Builder method `allowDirectories`. -/
def FilePickerBuilder.allowDirectories (b : FilePickerBuilder) (allow : Bool) :
    FilePickerBuilder :=
  { b with directoriesAllowed := allow }

/-- Builder method `startAt`. -/
def FilePickerBuilder.startAt (b : FilePickerBuilder) (path : String) :
    FilePickerBuilder :=
  { b with path := some path }

/-- Builder method `setFilter`. -/
def FilePickerBuilder.setFilter (b : FilePickerBuilder)
    (filter : FNode → Bool) : FilePickerBuilder :=
  { b with filter := some filter }

/-- Builder method `build`: constructs the `FilePicker` from seven
arguments — title, multi-select flag, mime filter, directories flag,
buttons, path and filter; the constructor's eighth parameter `container`
is not passed and stays undefined. -/
def FilePickerBuilder.build (b : FilePickerBuilder) : FilePicker :=
  { title := b.title
    multiSelect := b.multiSelect
    mimeTypeFilter := b.mimeTypeFilter
    directoriesAllowed := b.directoriesAllowed
    buttons := b.buttons
    path := b.path
    filter := b.filter
    container := none }

/-- C1: the promise returned by `pick` has exactly two outcomes: it is
rejected with the `FilePickerClosed` error precisely when the close event
carries no node array or an empty one (as a dismissal via `handleClose`
does, emitting a close event without nodes), and for any non-empty node
list it resolves with the node paths — the full list in multi-select mode,
the first node's path in single-select mode. -/
theorem pick_promise_outcomes (m : Bool) (nodes : Option (List FNode)) :
    ((pickOnClose m nodes).isRejected = true ↔ nodes = none ∨ nodes = some [])
    ∧ ((pickOnClose m nodes).isRejected = true →
        pickOnClose m nodes = .closedError "FilePicker: No nodes selected")
    ∧ (∀ ns, nodes = some ns → ns ≠ [] →
        pickOnClose m nodes =
          if m then .multi (ns.map FNode.path)
          else .single (jsOrStr (ns.head?.map FNode.path) "/"))
    ∧ handleClose false = some none := by
  refine ⟨?_, ?_, ?_, rfl⟩
  · rcases nodes with _ | ns
    · simp [pickOnClose, PickResult.isRejected]
    · rcases ns with _ | ⟨n, ns⟩
      · simp [pickOnClose, PickResult.isRejected]
      · cases m <;> simp [pickOnClose, PickResult.isRejected]
  · rcases nodes with _ | ns
    · intro _; rfl
    · rcases ns with _ | ⟨n, ns⟩
      · intro _; rfl
      · cases m <;> simp [pickOnClose, PickResult.isRejected]
  · rintro ns rfl hne
    rcases ns with _ | ⟨n, ns⟩
    · exact absurd rfl hne
    · cases m <;> simp [pickOnClose]

/-- Closed instance of C1: a button-driven close with one selected node in
single-select mode resolves to that node's path, and a close with an empty
node list is rejected. -/
theorem pick_promise_outcomes_witness :
    pickOnClose false (some [⟨"a.txt", "/a.txt", .file, none⟩]) =
        .single (jsOrStr ((([⟨"a.txt", "/a.txt", .file, none⟩] :
          List FNode).head?).map FNode.path) "/")
    ∧ pickOnClose true (some []) =
        .closedError "FilePicker: No nodes selected" :=
  ⟨by
    have h := pick_promise_outcomes false
      (some [⟨"a.txt", "/a.txt", .file, none⟩])
    exact h.2.2.1 _ rfl (by simp),
   by
    have h := pick_promise_outcomes true (some [])
    exact h.2.1 (h.1.mpr (Or.inr rfl))⟩

/-- C2: the visible-entries computation is the conjunction of the four
filters of the source — hidden-file rule, mime allow-list rule exempting
folders, case-insensitive query rule, caller predicate rule — applied in
that fixed order, and on the scenario input with hidden files off and the
image wildcard mime filter only the png file survives. -/
theorem filter_pipeline_conjunctive :
    (∀ (showHiddenFiles : Bool) (props : PickerProps) (filterString : String)
        (files : List FNode),
      filteredFiles showHiddenFiles props filterString files =
        files.filter fun file =>
          passesHidden showHiddenFiles file && passesMime props file
            && passesQuery filterString file && passesFilterFn props file)
    ∧ filteredFiles false { mimetypeFilter := ["image/*"] } ""
        [⟨".git", "/.git", .folder, none⟩,
          ⟨"readme.md", "/readme.md", .file, some "text/plain"⟩,
          ⟨"photo.png", "/photo.png", .file, some "image/png"⟩] =
        [⟨"photo.png", "/photo.png", .file, some "image/png"⟩] :=
  ⟨filteredFiles_eq_filter, by rfl⟩

/-- C9: the filter pipeline is idempotent — applying `filteredFiles` to
its own output under the same criteria returns that output unchanged. -/
theorem filter_pipeline_idempotent (showHiddenFiles : Bool)
    (props : PickerProps) (filterString : String) (files : List FNode) :
    filteredFiles showHiddenFiles props filterString
        (filteredFiles showHiddenFiles props filterString files) =
      filteredFiles showHiddenFiles props filterString files := by
  simp [filteredFiles_eq_filter, List.filter_filter, Bool.and_self,
    Bool.and_assoc, Bool.and_comm, Bool.and_left_comm]

/-- C4: every run of the `currentPath` setter resets the selected files to
the empty list, so the selection is empty immediately after any
navigation. -/
theorem navigation_resets_selection (props : PickerProps) (st : PickerState)
    (path : String) :
    (setCurrentPath props st path).selectedFiles = [] := rfl

/-- C5: while the current view is favorites or recent the current path is
the root; switching the view back to files after navigating to `p` yields
`p` again, and when nothing was navigated the files-view path falls back
to the caller-supplied path prop and then to the saved persisted path. -/
theorem view_path_restoration (props : PickerProps) (st : PickerState)
    (p : String) (v : View) (hp : p ≠ "") (hv : v ≠ View.files) :
    (st.currentView = View.favorites ∨ st.currentView = View.recent →
      getCurrentPath props st = "/")
    ∧ getCurrentPath props
        (setCurrentView (setCurrentView (setCurrentPath props st p) v)
          View.files) = p
    ∧ getCurrentPath props (setCurrentView (setCurrentPath props st p) v) = "/"
    ∧ (st.navigatedPath = none →
        getCurrentPath props (setCurrentView st View.files) =
          jsOrStr props.path st.savedPath) := by
  refine ⟨?_, ?_, ?_, ?_⟩
  · rintro (h | h) <;> simp [getCurrentPath, h]
  · simp [getCurrentPath, setCurrentView, setCurrentPath, jsOrStr, hp]
  · simp [getCurrentPath, setCurrentView, setCurrentPath, hv]
  · intro h
    simp [getCurrentPath, setCurrentView, h, jsOrStr]

/-- Closed instance of C5: navigating to the Documents folder, switching to
favorites and back to files restores the Documents path. -/
theorem view_path_restoration_witness :
    getCurrentPath { }
        (setCurrentView
          (setCurrentView (setCurrentPath { } (initPickerState none)
            "/Documents") View.favorites) View.files) = "/Documents" :=
  (view_path_restoration { } (initPickerState none) "/Documents"
    View.favorites (by decide) (by decide)).2.1

/-- C3: when a confirming button fires with an empty selection and
directory picking allowed, the close payload is the entry of the current
path fetched through the distinct `getFile` lookup and the promise
resolves to that directory's path; with a non-empty selection the payload
is the selected nodes and the promise resolves to their paths — the whole
ordered list in multi-select mode, the single first path in single-select
mode. -/
theorem confirm_resolution (props : PickerProps) (getFile : String → FNode)
    (st : PickerState) :
    (st.selectedFiles = [] → props.allowPickDirectory = true →
      pickNodes props getFile st = [getFile (getCurrentPath props st)]
      ∧ (props.multiselect = true →
          pickOnClose props.multiselect (some (pickNodes props getFile st)) =
            .multi [(getFile (getCurrentPath props st)).path])
      ∧ (props.multiselect = false →
          (getFile (getCurrentPath props st)).path ≠ "" →
          pickOnClose props.multiselect (some (pickNodes props getFile st)) =
            .single (getFile (getCurrentPath props st)).path))
    ∧ (st.selectedFiles ≠ [] →
      pickNodes props getFile st = st.selectedFiles
      ∧ (props.multiselect = true →
          pickOnClose props.multiselect (some (pickNodes props getFile st)) =
            .multi (st.selectedFiles.map FNode.path))
      ∧ (∀ n rest, st.selectedFiles = n :: rest →
          props.multiselect = false → n.path ≠ "" →
          pickOnClose props.multiselect (some (pickNodes props getFile st)) =
            .single n.path)) := by
  constructor
  · intro hsel hdir
    have hnodes : pickNodes props getFile st =
        [getFile (getCurrentPath props st)] := by
      simp [pickNodes, hsel, hdir]
    refine ⟨hnodes, ?_, ?_⟩
    · intro hm
      simp [hnodes, pickOnClose, hm]
    · intro hm hpath
      simp [hnodes, pickOnClose, hm, jsOrStr, hpath]
  · intro hsel
    have hnodes : pickNodes props getFile st = st.selectedFiles := by
      simp [pickNodes, List.length_eq_zero, hsel]
    refine ⟨hnodes, ?_, ?_⟩
    · intro hm
      rcases he : st.selectedFiles with _ | ⟨n, rest⟩
      · exact absurd he hsel
      · simp [hnodes, pickOnClose, hm, he]
    · rintro n rest he hm hpath
      simp [hnodes, pickOnClose, hm, he, jsOrStr, hpath]

/-- Closed instance of C3: a single-select confirm with empty selection and
directories allowed after navigating to the Documents folder resolves to
the Documents path. -/
theorem confirm_resolution_witness :
    pickOnClose false
        (some (pickNodes { allowPickDirectory := true, multiselect := false }
          (fun p => ⟨"Documents", p, .folder, none⟩)
          (setCurrentPath { allowPickDirectory := true, multiselect := false }
            (initPickerState none) "/Documents"))) =
      .single "/Documents" := by
  have h := confirm_resolution
    { allowPickDirectory := true, multiselect := false }
    (fun p => ⟨"Documents", p, .folder, none⟩)
    (setCurrentPath { allowPickDirectory := true, multiselect := false }
      (initPickerState none) "/Documents")
  have h2 := (h.1 rfl rfl).2.2 rfl (by decide)
  simpa using h2

/-- Counterexample to C6 as stated: when the refreshed listing holds no
entry with the created folder's basename, the code still emits the
`files:node:created` event — with an undefined payload — rather than
firing no notification. -/
theorem create_folder_missing_entry_still_emits :
    (onCreateFolder "/files/admin" (fun _ => true) [] [] "/"
        "New Folder").emittedEvent = some none := by
  rfl

/-- C6 (amended): on success of the remote create-directory call the
listing is the re-fetched one, the error toast is not shown, and a
node-created event always fires whose payload is the first entry of the
refreshed listing with the created basename — which is undefined when no
such entry exists; on failure an error is shown, no event fires and the
listing is unchanged. -/
theorem create_folder_flow (davRootPath : String)
    (createDirectory : String → Bool) (reloadedFiles currentFiles : List FNode)
    (currentPath name : String) :
    (createDirectory (joinPath davRootPath currentPath name) = true →
      (onCreateFolder davRootPath createDirectory reloadedFiles currentFiles
          currentPath name).files = reloadedFiles
      ∧ (onCreateFolder davRootPath createDirectory reloadedFiles currentFiles
          currentPath name).emittedEvent =
        some ((reloadedFiles.filter fun file => file.basename = name).head?)
      ∧ ((reloadedFiles.filter fun file => file.basename = name) = [] →
          (onCreateFolder davRootPath createDirectory reloadedFiles
            currentFiles currentPath name).emittedEvent = some none)
      ∧ (onCreateFolder davRootPath createDirectory reloadedFiles currentFiles
          currentPath name).errorShown = false)
    ∧ (createDirectory (joinPath davRootPath currentPath name) = false →
      (onCreateFolder davRootPath createDirectory reloadedFiles currentFiles
          currentPath name).files = currentFiles
      ∧ (onCreateFolder davRootPath createDirectory reloadedFiles currentFiles
          currentPath name).emittedEvent = none
      ∧ (onCreateFolder davRootPath createDirectory reloadedFiles currentFiles
          currentPath name).errorShown = true) := by
  constructor
  · intro hs
    refine ⟨?_, ?_, ?_, ?_⟩ <;> simp [onCreateFolder, hs]
  · intro hf
    refine ⟨?_, ?_, ?_⟩ <;> simp [onCreateFolder, hf]

/-- Closed instance of C6 (amended): a successful creation with the new
folder present in the refreshed listing emits the event carrying that
entry, and a failed creation shows the error without emitting. -/
theorem create_folder_flow_witness :
    (onCreateFolder "/files/admin" (fun _ => true)
        [⟨"New Folder", "/New Folder", .folder, none⟩] [] "/"
        "New Folder").emittedEvent =
      some (some ⟨"New Folder", "/New Folder", .folder, none⟩)
    ∧ (onCreateFolder "/files/admin" (fun _ => false) [] [] "/"
        "New Folder").errorShown = true := by
  constructor
  · have h := (create_folder_flow "/files/admin" (fun _ => true)
      [⟨"New Folder", "/New Folder", .folder, none⟩] [] "/" "New Folder").1
      rfl
    simpa using h.2.1
  · exact ((create_folder_flow "/files/admin" (fun _ => false) [] [] "/"
      "New Folder").2 rfl).2.2

/-- Counterexample to C7 as stated: calling `setButtonFactory` on a
builder that already holds static buttons logs no warning — the warn log
stays empty. -/
theorem builder_factory_overwrite_silent :
    ((((getFilePickerBuilder "title").addButton
        { label := "Choose" }).setButtonFactory
          (fun _ _ _ => [])).warnLog = []) := by
  rfl

/-- C7 (amended): `addButton` after `setButtonFactory` logs a warning and
replaces the factory with just the new button, while `setButtonFactory`
replaces any previous buttons with the factory silently, without logging;
neither case is a hard failure. -/
theorem builder_button_overwrite (b : FilePickerBuilder)
    (button : IFilePickerButton)
    (factory : List FNode → String → View → List IFilePickerButton) :
    (∀ f0, b.buttons = .factory f0 →
      (b.addButton button).buttons = .list [button]
      ∧ (b.addButton button).warnLog = b.warnLog ++ [addButtonWarning])
    ∧ (b.setButtonFactory factory).buttons = .factory factory
    ∧ (b.setButtonFactory factory).warnLog = b.warnLog := by
  refine ⟨?_, rfl, rfl⟩
  rintro f0 h
  simp [FilePickerBuilder.addButton, h]

/-- Closed instance of C7 (amended): adding a button to a builder whose
buttons are a factory replaces the factory and logs exactly the overwrite
warning. -/
theorem builder_button_overwrite_witness :
    ((((getFilePickerBuilder "title").setButtonFactory
        (fun _ _ _ => [])).addButton { label := "Choose" }).warnLog =
      [addButtonWarning]) :=
  ((builder_button_overwrite
    ((getFilePickerBuilder "title").setButtonFactory (fun _ _ _ => []))
    { label := "Choose" } (fun _ _ _ => [])).1 (fun _ _ _ => []) rfl).2

/-- Counterexample to C8 as stated: with a caller-supplied initial path
prop, setting the current path does not write the persisted last-path
value — the storage cell keeps its old contents. -/
theorem persist_write_skipped_with_path_prop :
    (setCurrentPath { path := some "/init" } (initPickerState none)
        "/bar").storage ≠ some "/bar" := by
  decide

/-- C8 (amended): the persisted last path under the fixed session-storage
key is written by the `currentPath` setter exactly when no caller-supplied
`path` prop exists, in which case every navigation stores the new path;
with a `path` prop the storage is left untouched; and at session start the
stored value is read as the fallback default of the files-view path. -/
theorem persist_last_path (props : PickerProps) (st : PickerState)
    (p : String) :
    (props.path = none → (setCurrentPath props st p).storage = some p)
    ∧ (props.path ≠ none → (setCurrentPath props st p).storage = st.storage)
    ∧ (props.path = none → ∀ s, s ≠ "" →
        getCurrentPath props (initPickerState (some s)) = s) := by
  refine ⟨?_, ?_, ?_⟩
  · intro h
    simp [setCurrentPath, h]
  · intro h
    simp [setCurrentPath, h]
  · intro h s hs
    simp [getCurrentPath, initPickerState, h, jsOrStr, hs]

/-- Closed instance of C8 (amended): with no path prop, navigating stores
the new path in session storage. -/
theorem persist_last_path_witness :
    (setCurrentPath { } (initPickerState none) "/bar").storage =
      some "/bar" :=
  (persist_last_path { } (initPickerState none) "/bar").1 rfl

/-- C10: `build` never passes the builder's container on — the constructed
picker's container is undefined even right after `setContainer`, so the
spawned dialog's props fall back to the default body container. -/
theorem build_ignores_container (b : FilePickerBuilder) (c : String) :
    ((b.setContainer c).build).container = none
    ∧ (((b.setContainer c).build).spawnProps).container = "body" :=
  ⟨rfl, rfl⟩

end NcDialogs
